import Mathlib

/-!
Shallow embedding of the `libtcc` Rust crate (src/src/lib.rs), a safety
layer over the tinycc engine.  The engine itself is an external opaque
collaborator: every wrapper function that calls into the engine is
parameterised by the integer (or pointer) the engine call returns, and
the wrapper's own control flow is translated literally.  Raw C pointers
are modelled as natural numbers with `0` playing the role of the null
pointer.
-/

namespace LibTcc

/-! ## Process guard (src/src/lib.rs lines 34-61)

`static AVAILABLE: AtomicBool = AtomicBool::new(true)` together with the
number of live `Guard` tokens (a ghost counter tracking Rust ownership).
-/

/-- State of the guard subsystem: the `AVAILABLE` atomic flag plus a ghost
count of live `Guard` tokens. -/
structure GuardSys where
  available : Bool
  live : Nat
  deriving DecidableEq, Repr

/-- Initial state: `AVAILABLE` is `true`, no guard exists. -/
def initSys : GuardSys := { available := true, live := 0 }

/-- `Guard::new`: `AVAILABLE.swap(false, SeqCst)` returns the old flag value;
the acquisition succeeds (a `Guard` is created) exactly when that old value
was `true`.  Returns the success flag and the new state. -/
def guardNew (s : GuardSys) : Bool × GuardSys :=
  let old := s.available
  (old, { available := false, live := if old then s.live + 1 else s.live })

/-- `Drop for Guard`: `AVAILABLE.store(true, SeqCst)`; the dropped token no
longer exists. -/
def guardDrop (s : GuardSys) : GuardSys :=
  { available := true, live := s.live - 1 }

/-- Operations a client program can perform on the guard subsystem. -/
inductive GOp
  | acquire
  | release
  deriving DecidableEq, Repr

/-- One step of the guard subsystem. -/
def stepG (s : GuardSys) : GOp → GuardSys
  | .acquire => (guardNew s).2
  | .release => guardDrop s

/-- Run a sequence of operations from a state. -/
def runG (s : GuardSys) (ops : List GOp) : GuardSys :=
  ops.foldl stepG s

/-- A sequence of operations is well formed when every `release` drops a
guard that actually exists (Rust ownership: only a live `Guard` can be
dropped). -/
def wfG : GuardSys → List GOp → Bool
  | _, [] => true
  | s, op :: rest =>
    (op ≠ GOp.release || decide (0 < s.live)) && wfG (stepG s op) rest

/-- The guard invariant: the `AVAILABLE` flag is set exactly when no guard
is live, and at most one guard is ever live. -/
def invG (s : GuardSys) : Prop :=
  (s.available = true ↔ s.live = 0) ∧ s.live ≤ 1

/-! ## Output type (src/src/lib.rs lines 63-81) -/

/-- `pub enum OutputType` with its five variants. -/
inductive OutputType
  | Memory
  | Exe
  | Dll
  | Obj
  | Preprocess
  deriving DecidableEq, Repr, Fintype

/-- The `#[repr(u32)]` discriminants `TCC_OUTPUT_*` (src/src/binding.rs
lines 3-7). -/
def OutputType.toDiscr : OutputType → Nat
  | .Memory => 1
  | .Exe => 2
  | .Dll => 3
  | .Obj => 4
  | .Preprocess => 5

/-! ## Compilation context (src/src/lib.rs lines 83-280)

Raw pointers are naturals, `0` is the null pointer.  Engine calls are
inputs: each wrapper takes the value the engine call returns. -/

/-- `pub struct Context`: the engine handle `inner` (a raw pointer), the
identity of the borrowed guard `_g`, and the optionally installed
diagnostic closure `err_func` (modelled by an identifier). -/
structure Ctx where
  inner : Nat
  g : Nat
  errFunc : Option Nat
  deriving DecidableEq, Repr

/-- `fn map_c_ret(code: c_int) -> Result<(), ()>`. -/
def map_c_ret (code : Int) : Except Unit Unit :=
  if code = 0 then .ok () else .error ()

/-- `Context::new(g: &mut Guard)`: calls `tcc_new()`; `raw` is the returned
handle pointer.  A null handle means out of memory and yields `Err(())`;
otherwise the context owns the handle, stores the guard borrow, and has no
error callback installed. -/
def Context.new (gid : Nat) (raw : Nat) : Except Unit Ctx :=
  if raw = 0 then .error ()
  else .ok { inner := raw, g := gid, errFunc := none }

/-- `Context::compile_string`: calls `tcc_compile_string` (returning
`engineRet`) and maps the C return code. -/
def Ctx.compile_string (_c : Ctx) (engineRet : Int) : Except Unit Unit :=
  map_c_ret engineRet

/-- `Context::add_file`: calls `tcc_add_file` (returning `engineRet`) and
maps the C return code exactly as `compile_string` does. -/
def Ctx.add_file (_c : Ctx) (engineRet : Int) : Except Unit Unit :=
  map_c_ret engineRet

/-- `Drop for Context` (lines 266-272): `tcc_delete` is called only when
the stored pointer is non-null.  Returned as the list of engine
destructions the drop performs. -/
def Ctx.dropRun (c : Ctx) : List Nat :=
  if c.inner ≠ 0 then [c.inner] else []

/-- `Context::output_file` consumes the context: the engine call
`tcc_output_file` returns `engineRet`, its code is mapped, and the moved
`self` is dropped when the call returns, running `Ctx.dropRun`. -/
def Ctx.output_file (c : Ctx) (engineRet : Int) : Except Unit Unit × List Nat :=
  (map_c_ret engineRet, c.dropRun)

/-- `len as usize`: the Rust `c_int → usize` cast (sign extension modulo
`2 ^ 64`). -/
def intToUsize (i : Int) : Nat :=
  (i % (2 : Int) ^ 64).toNat

/-- `pub struct RelocatedCtx`: the transferred engine handle and the
length of the backing buffer `_bin`. -/
structure RelocatedCtx where
  inner : Nat
  binLen : Nat
  deriving DecidableEq, Repr

/-- `Drop for RelocatedCtx` (lines 305-309): `tcc_delete(self.inner)`
unconditionally. -/
def RelocatedCtx.dropRun (r : RelocatedCtx) : List Nat :=
  [r.inner]

/-- `RelocatedCtx::get_symbol`: `tcc_get_symbol` returns the raw address
`addr` (`0` = null); a null address yields `None`, otherwise
`Some(addr)`. -/
def RelocatedCtx.get_symbol (_r : RelocatedCtx) (addr : Nat) : Option Nat :=
  if addr = 0 then none else some addr

/-- `Context::relocate` (lines 236-257).  `lenRet` is what the first
`tcc_relocate(inner, null)` call returns, `fillRet` what the second call
with the freshly allocated buffer returns.  The first component is the
`Result`, the second the state of the consumed `self` at function exit
(its destructor runs there). -/
def Ctx.relocate (c : Ctx) (lenRet fillRet : Int) :
    Except Unit RelocatedCtx × Ctx :=
  if lenRet = -1 then (.error (), c)
  else if fillRet ≠ 0 then (.error (), c)
  else
    let tcc_handle := c.inner
    (.ok { inner := tcc_handle, binLen := intToUsize lenRet },
      { c with inner := 0 })

/-- Every engine destruction performed along a complete `relocate` path:
the consumed context is dropped when `relocate` returns, and on success
the produced `RelocatedCtx` is dropped later. -/
def relocatePathDeletes (c : Ctx) (lenRet fillRet : Int) : List Nat :=
  match c.relocate lenRet fillRet with
  | (.ok r, c') => c'.dropRun ++ r.dropRun
  | (.error _, c') => c'.dropRun

/-! ## Configuration-operation signatures (src/src/lib.rs lines 117-189)

What each configuration method returns, read off the source
signatures. -/

/-- Return type shape of a configuration method. -/
inductive RetKind
  | mutRefSelf
  | rawPtrSelf
  deriving DecidableEq, Repr

/-- The configuration operations of `Context` named by the spec. -/
inductive ConfigOp
  | setLibPath
  | setOptions
  | setCallBack
  | addIncludePath
  | addSysIncludePath
  | addLibraryPath
  | defineSymbol
  | undefineSymbol
  | setOutputType
  deriving DecidableEq, Repr, Fintype

/-- The return type of each configuration method as written in the
source: all return `&mut Self` except `define_symbol` (line 171), whose
signature is `-> *mut Self`. -/
def returnKind : ConfigOp → RetKind
  | .setLibPath => .mutRefSelf
  | .setOptions => .mutRefSelf
  | .setCallBack => .mutRefSelf
  | .addIncludePath => .mutRefSelf
  | .addSysIncludePath => .mutRefSelf
  | .addLibraryPath => .mutRefSelf
  | .defineSymbol => .rawPtrSelf
  | .undefineSymbol => .mutRefSelf
  | .setOutputType => .mutRefSelf

/-! ## Guard invariant lemmas -/

theorem invG_init : invG initSys := by
  constructor <;> simp [initSys]

theorem invG_step (s : GuardSys) (op : GOp)
    (hinv : invG s) (hop : op = GOp.release → 0 < s.live) :
    invG (stepG s op) := by
  obtain ⟨hflag, hle⟩ := hinv
  cases op with
  | acquire =>
    by_cases h : s.available = true
    · have h0 : s.live = 0 := hflag.mp h
      simp [stepG, guardNew, invG, h, h0]
    · have h0 : s.live ≠ 0 := fun hc => h (hflag.mpr hc)
      simp only [Bool.not_eq_true] at h
      simp [stepG, guardNew, invG, h, h0, hle]
  | release =>
    have hpos : 0 < s.live := hop rfl
    have h1 : s.live = 1 := le_antisymm hle hpos
    simp [stepG, guardDrop, invG, h1]

theorem invG_run (s : GuardSys) (ops : List GOp)
    (hinv : invG s) (hwf : wfG s ops = true) : invG (runG s ops) := by
  induction ops generalizing s with
  | nil => simpa [runG]
  | cons op rest ih =>
    simp only [wfG, Bool.and_eq_true, Bool.or_eq_true, decide_eq_true_eq] at hwf
    obtain ⟨hop, hrest⟩ := hwf
    have hop' : op = GOp.release → 0 < s.live := by
      intro h
      rcases hop with h' | h'
      · simp [h] at h'
      · exact h'
    have := invG_step s op hinv hop'
    simpa [runG] using ih (stepG s op) this hrest

/-! ## Claim theorems -/

/-- Claim C2: after any well-formed sequence of acquire and release
operations, at most one Guard is live, and a further acquisition succeeds
if and only if no Guard is currently held (via the check-and-set of the
availability flag `AVAILABLE`). -/
theorem guard_exclusive (ops : List GOp) (hwf : wfG initSys ops = true) :
    (runG initSys ops).live ≤ 1 ∧
      ((guardNew (runG initSys ops)).1 = true ↔ (runG initSys ops).live = 0) := by
  have h := invG_run initSys ops invG_init hwf
  exact ⟨h.2, by simpa [guardNew] using h.1⟩

theorem guard_exclusive_witness :
    wfG initSys [GOp.acquire, GOp.release, GOp.acquire] = true ∧
      ((runG initSys [GOp.acquire, GOp.release, GOp.acquire]).live ≤ 1 ∧
        ((guardNew (runG initSys [GOp.acquire, GOp.release, GOp.acquire])).1 = true ↔
          (runG initSys [GOp.acquire, GOp.release, GOp.acquire]).live = 0)) :=
  ⟨by decide, guard_exclusive [GOp.acquire, GOp.release, GOp.acquire] (by decide)⟩

/-- Claim C3: releasing a Guard unconditionally restores availability, so
an acquisition immediately after any release succeeds; and a failed
acquisition leaves the guard state (hence the held Guard) unchanged. -/
theorem guard_release_restores (s : GuardSys) :
    (guardDrop s).available = true ∧
      (guardNew (guardDrop s)).1 = true ∧
      ((guardNew s).1 = false → (guardNew s).2 = s) := by
  refine ⟨rfl, rfl, fun h => ?_⟩
  cases s with
  | mk avail live =>
    simp only [guardNew] at h ⊢
    simp_all

theorem guard_release_restores_witness :
    (guardNew (GuardSys.mk false 1)).1 = false ∧
      (guardNew (GuardSys.mk false 1)).2 = GuardSys.mk false 1 :=
  ⟨by decide, (guard_release_restores (GuardSys.mk false 1)).2.2 (by decide)⟩

/-- Claim C4, counterexample: `OutputType` is not exhausted by the four
values Memory, Exe, Dll, Obj — the variant `Preprocess` is a fifth one. -/
theorem outputType_not_four :
    ¬ ∀ t : OutputType, t = OutputType.Memory ∨ t = OutputType.Exe ∨
      t = OutputType.Dll ∨ t = OutputType.Obj := by
  decide

/-- Claim C4, amended: `OutputType` is an enumeration with exactly the five
values Memory, Exe, Dll, Obj and Preprocess (the last used internally for
preprocessing only), with pairwise distinct `u32` discriminants. -/
theorem outputType_five :
    (∀ t : OutputType, t = OutputType.Memory ∨ t = OutputType.Exe ∨
      t = OutputType.Dll ∨ t = OutputType.Obj ∨ t = OutputType.Preprocess) ∧
      Function.Injective OutputType.toDiscr := by
  constructor
  · decide
  · intro a b h
    revert h
    revert a b
    decide

/-- Claim C5: the configuration methods return `&mut Self` for chaining —
except `define_symbol`, whose source signature returns the raw pointer
`*mut Self` (src/src/lib.rs line 171), which cannot be chained safely. -/
theorem config_return_kinds :
    ∀ op : ConfigOp,
      returnKind op =
        (if op = ConfigOp.defineSymbol then RetKind.rawPtrSelf
          else RetKind.mutRefSelf) := by
  decide

/-- Claim C1, counterexample: when the size query returns `0` (a size
that is ≤ 0) and the second call returns `0`, `relocate` yields an image
instead of signalling `RelocationError` — the source only treats `-1` as
a failing size query. -/
theorem relocate_zero_size_ok :
    ((Ctx.mk 5 1 none).relocate 0 0).1 =
        Except.ok (RelocatedCtx.mk 5 0) ∧
      (0 : Int) ≤ 0 := by
  exact ⟨rfl, by decide⟩

/-- Claim C1, amended: `relocate` first queries the required buffer size
with a null target and signals `RelocationError` exactly when that call
returns `-1`; otherwise it allocates a buffer of the queried size (cast
to `usize`), calls again with that buffer, and independently signals
`RelocationError` on any non-zero return from the second call, yielding a
Relocated Image (owning the handle and that buffer) only when both calls
succeed. -/
theorem relocate_two_call (c : Ctx) (lenRet fillRet : Int) :
    ((c.relocate lenRet fillRet).1.isOk = true ↔ (lenRet ≠ -1 ∧ fillRet = 0)) ∧
      (lenRet ≠ -1 → fillRet = 0 →
        (c.relocate lenRet fillRet).1 =
          Except.ok (RelocatedCtx.mk c.inner (intToUsize lenRet))) := by
  by_cases h1 : lenRet = -1
  · simp [Ctx.relocate, h1, Except.isOk, Except.toBool]
  · by_cases h2 : fillRet = 0
    · simp [Ctx.relocate, h1, h2, Except.isOk, Except.toBool]
    · simp [Ctx.relocate, h1, h2, Except.isOk, Except.toBool]

theorem relocate_two_call_witness :
    ((Ctx.mk 5 1 none).relocate 16 0).1 =
      Except.ok (RelocatedCtx.mk 5 16) := by
  have h := (relocate_two_call (Ctx.mk 5 1 none) 16 0).2 (by decide) rfl
  exact h

/-- Claim C6: `compile_string` and `add_file` fail exactly when the
engine's compile entry point returns non-zero, succeed otherwise, and
share the same error kind and value (an unreadable path surfaces as the
engine returning non-zero, with no distinct error value). -/
theorem compile_maps_engine_ret (c : Ctx) (r : Int) :
    (c.compile_string r = Except.error () ↔ r ≠ 0) ∧
      (c.compile_string r = Except.ok () ↔ r = 0) ∧
      c.add_file r = c.compile_string r := by
  refine ⟨?_, ?_, rfl⟩ <;>
    by_cases h : r = 0 <;> simp [Ctx.compile_string, map_c_ret, h]

/-- Claim C7: `Context::new` fails exactly when the engine returns a null
handle; on a non-null handle it returns a context that owns that handle,
records the guard borrow, and has no diagnostic callback installed. -/
theorem context_new_spec (gid raw : Nat) :
    ((Context.new gid raw).isOk = true ↔ raw ≠ 0) ∧
      (raw ≠ 0 →
        Context.new gid raw = Except.ok (Ctx.mk raw gid none)) := by
  by_cases h : raw = 0 <;> simp [Context.new, h, Except.isOk, Except.toBool]

theorem context_new_spec_witness :
    Context.new 1 7 = Except.ok (Ctx.mk 7 1 none) :=
  (context_new_spec 1 7).2 (by decide)

/-- Claim C8: `output_file` consumes the context, returns `LinkError`
exactly when the engine's output call returns non-zero, and in both cases
the destructor of the consumed context destroys the (non-null) engine
handle afterward. -/
theorem output_file_spec (c : Ctx) (r : Int) (h : c.inner ≠ 0) :
    ((c.output_file r).1 = Except.error () ↔ r ≠ 0) ∧
      (c.output_file r).2 = [c.inner] := by
  constructor
  · by_cases h0 : r = 0 <;> simp [Ctx.output_file, map_c_ret, h0]
  · simp [Ctx.output_file, Ctx.dropRun, h]

theorem output_file_spec_witness :
    (((Ctx.mk 5 1 none).output_file 3).1 = Except.error () ↔ (3 : Int) ≠ 0) ∧
      ((Ctx.mk 5 1 none).output_file 3).2 = [5] :=
  output_file_spec (Ctx.mk 5 1 none) 3 (by decide)

/-- Claim C9: symbol resolution on a relocated image returns the address
exactly when the engine lookup yields a non-null pointer and `none`
exactly when it yields null; being a total function into `Option`, it has
no other outcome. -/
theorem get_symbol_spec (r : RelocatedCtx) (addr : Nat) :
    (r.get_symbol addr = none ↔ addr = 0) ∧
      (∀ a, r.get_symbol addr = some a ↔ (addr ≠ 0 ∧ a = addr)) := by
  by_cases h : addr = 0 <;> simp [RelocatedCtx.get_symbol, h, eq_comm]

/-- Claim C10: along every complete `relocate` path the non-null engine
handle is destroyed exactly once — a successful relocate nulls the
consumed context's pointer (so its destructor deletes nothing and the
image's destructor deletes the transferred handle), a failed relocate
leaves the pointer in the consumed context whose destructor deletes it,
and the context destructor only deletes a non-null pointer. -/
theorem handle_deleted_once (c : Ctx) (lenRet fillRet : Int)
    (h : c.inner ≠ 0) :
    relocatePathDeletes c lenRet fillRet = [c.inner] ∧
      ((c.relocate lenRet fillRet).1.isOk = true →
        (c.relocate lenRet fillRet).2.inner = 0) ∧
      ((c.relocate lenRet fillRet).1.isOk = false →
        (c.relocate lenRet fillRet).2 = c) ∧
      (∀ d : Ctx, d.inner = 0 → d.dropRun = []) := by
  refine ⟨?_, ?_, ?_, ?_⟩
  · by_cases h1 : lenRet = -1
    · simp [relocatePathDeletes, Ctx.relocate, h1, Ctx.dropRun, h]
    · by_cases h2 : fillRet = 0
      · simp [relocatePathDeletes, Ctx.relocate, h1, h2, Ctx.dropRun,
          RelocatedCtx.dropRun]
      · simp [relocatePathDeletes, Ctx.relocate, h1, h2, Ctx.dropRun, h]
  · intro hok
    by_cases h1 : lenRet = -1
    · simp [Ctx.relocate, h1, Except.isOk, Except.toBool] at hok
    · by_cases h2 : fillRet = 0
      · simp [Ctx.relocate, h1, h2]
      · simp [Ctx.relocate, h1, h2, Except.isOk, Except.toBool] at hok
  · intro herr
    by_cases h1 : lenRet = -1
    · simp [Ctx.relocate, h1]
    · by_cases h2 : fillRet = 0
      · simp [Ctx.relocate, h1, h2, Except.isOk, Except.toBool] at herr
      · simp [Ctx.relocate, h1, h2]
  · intro d hd
    simp [Ctx.dropRun, hd]

theorem handle_deleted_once_witness :
    relocatePathDeletes (Ctx.mk 5 1 none) 16 0 = [5] :=
  (handle_deleted_once (Ctx.mk 5 1 none) 16 0 (by decide)).1

end LibTcc
